import Mathlib

/-!
Verification of the payshipit client against its specification.

The repository is a React Native client for a logistics and escrow-payment
platform.  The developments below shallowly embed the parts of the source
that the claims concern:

* the chat subsystem of `src/components/Chat.tsx` and the message renderer
  of `src/components/AudioPlayer.tsx` (action sheet, realtime fold, typing
  debounce, soft delete, attachment sends);
* the escrow fund-release edge function of `src/app/invoice/index.ts`;
* the invoice wallet-payment sequence of `src/app/invoice/[id].tsx`.

Remote writes are modelled by explicit state passing over a database record;
each fallible remote call takes a boolean failure flag, so a run of the
handler is parameterised by which remote calls fail.  JavaScript truthiness
of nullable string columns is modelled explicitly: `null` and the empty
string are falsy, every other string is truthy.
-/

namespace Payshipit

/-- JavaScript truthiness of a nullable string column: `null` and `""` are
falsy, everything else truthy. -/
def jsTruthy : Option String → Bool
  | none => false
  | some s => s ≠ ""

/-- A row of the `messages` table (`Tables<'messages'>` in
`src/types/database.ts`), restricted to the columns the chat component
reads or writes. -/
structure Row where
  id : Nat
  conversation_id : Nat
  sender_id : Nat
  content : Option String
  image_url : Option String
  audio_url : Option String
  audio_duration_seconds : Option Nat
  reply_to_message_id : Option Nat
  created_at : Nat
  updated_at : Option Nat
  deleted_at : Option String
  read_at : Option Nat
deriving DecidableEq, Repr

/-- The flattened reply context carried by a store message
(`replied_to` after the `formattedData` map in `fetchMessages`). -/
structure RepliedTo where
  content : Option String
  image_url : Option String
  audio_url : Option String
  sender_name : String
deriving DecidableEq, Repr

/-- One joined reaction entry `{ emoji, user_id }`. -/
structure ReactionEntry where
  emoji : String
  user_id : Nat
deriving DecidableEq, Repr

/-- An element of the in-memory message list (`MessageWithReply` in
`src/components/Chat.tsx`): the table row plus the joined reaction list and
the flattened reply target. -/
structure StoreMsg where
  row : Row
  message_reactions : List ReactionEntry
  replied_to : Option RepliedTo
deriving DecidableEq, Repr

/-! ## Action sheet (`handleShowActions`, Chat.tsx lines 160-194) -/

/-- `canEdit` of `handleShowActions`: the message is the current user's own,
has truthy text content and no truthy image or audio attachment. -/
def canEdit (m : Row) (currentUser : Nat) : Bool :=
  m.sender_id = currentUser && jsTruthy m.content
    && !jsTruthy m.image_url && !jsTruthy m.audio_url

/-- `canDelete` of `handleShowActions`: the message is the current user's own. -/
def canDelete (m : Row) (currentUser : Nat) : Bool :=
  m.sender_id = currentUser

/-- The option list built by `handleShowActions`: always Cancel, Reply,
React; Edit appended when `canEdit`; Delete appended when `canDelete`. -/
def actionOptions (m : Row) (currentUser : Nat) : List String :=
  (["Cancel", "Reply", "React"]
      ++ (if canEdit m currentUser then ["Edit"] else []))
    ++ (if canDelete m currentUser then ["Delete"] else [])

/-- The state transition the action-sheet callback requests. -/
inductive ChatAction where
  | nothing
  | reply (m : Row)
  | react (m : Row)
  | edit (m : Row)
  | delete (messageId : Nat)
deriving DecidableEq, Repr

/-- The action-sheet completion callback of `handleShowActions`: looks up
`options[buttonIndex]` and dispatches on the selected label.  An
out-of-range index selects nothing. -/
def actionsCallback (opts : List String) (buttonIndex : Nat) (m : Row) :
    ChatAction :=
  match opts.get? buttonIndex with
  | some "Reply" => ChatAction.reply m
  | some "React" => ChatAction.react m
  | some "Edit" => ChatAction.edit m
  | some "Delete" => ChatAction.delete m.id
  | _ => ChatAction.nothing

/-! ## Conversation load (`fetchMessages`, Chat.tsx lines 63-101) -/

/-- The raw joined reply target returned by the select
(`replied_to:messages!reply_to_message_id(content, image_url, audio_url,
sender:profiles!sender_id(full_name))`). -/
structure FetchedReply where
  content : Option String
  image_url : Option String
  audio_url : Option String
  sender_full_name : String
deriving DecidableEq, Repr

/-- One element of the `data` array returned by the `fetchMessages`
select: a message row joined with its reactions and raw reply target. -/
structure FetchedMsg where
  row : Row
  message_reactions : List ReactionEntry
  replied_to : Option FetchedReply
deriving DecidableEq, Repr

/-- The contract of the remote query issued by `fetchMessages`:
`.eq('conversation_id', conversationId).order('created_at', { ascending:
true })`.  The backend returns some permutation of the matching rows that
is nondecreasing in `created_at`; no further ordering is requested, so
rows with equal timestamps may come back in any relative order. -/
def fetchQueryOk (conversationId : Nat)
    (table result : List FetchedMsg) : Prop :=
  result.Perm
      (table.filter (fun f => f.row.conversation_id == conversationId)) ∧
  result.Chain' (fun a b => a.row.created_at ≤ b.row.created_at)

/-- The image-signing step of the load loop: a truthy `image_url` is
replaced by the signed URL for the stored path (or null when signing
yields none). -/
def signImage (sign : String → String → Option String) (r : Row) : Row :=
  if jsTruthy r.image_url then
    { r with image_url := sign "chat_images" (r.image_url.getD "") }
  else r

/-- The audio-signing step of the load loop, against the `chat_audio`
bucket. -/
def signAudio (sign : String → String → Option String) (r : Row) : Row :=
  if jsTruthy r.audio_url then
    { r with audio_url := sign "chat_audio" (r.audio_url.getD "") }
  else r

/-- Both signing steps, in source order (image first, then audio). -/
def signRow (sign : String → String → Option String) (r : Row) : Row :=
  signAudio sign (signImage sign r)

/-- The `formattedData` map: flatten the joined reply target, pulling the
sender's full name up to `sender_name`. -/
def formatMessage (f : FetchedMsg) : StoreMsg :=
  { row := f.row
    message_reactions := f.message_reactions
    replied_to := f.replied_to.map (fun rp =>
      { content := rp.content
        image_url := rp.image_url
        audio_url := rp.audio_url
        sender_name := rp.sender_full_name }) }

/-- The whole client-side post-processing of a fetched result: sign each
row's attachment URLs, then flatten the reply join.  This is what
`setMessages` receives. -/
def processMessages (sign : String → String → Option String)
    (data : List FetchedMsg) : List StoreMsg :=
  data.map (fun f => formatMessage { f with row := signRow sign f.row })

/-- A concrete fetched message of conversation 1: id 1, created at time 5,
no content or attachments. -/
def sampleF1 : FetchedMsg :=
  { row := { id := 1, conversation_id := 1, sender_id := 7, content := none
             image_url := none, audio_url := none
             audio_duration_seconds := none, reply_to_message_id := none
             created_at := 5, updated_at := none, deleted_at := none
             read_at := none }
    message_reactions := []
    replied_to := none }

/-- A second concrete fetched message of conversation 1 with the same
creation timestamp as `sampleF1` but the larger id 2. -/
def sampleF2 : FetchedMsg :=
  { row := { id := 2, conversation_id := 1, sender_id := 8, content := none
             image_url := none, audio_url := none
             audio_duration_seconds := none, reply_to_message_id := none
             created_at := 5, updated_at := none, deleted_at := none
             read_at := none }
    message_reactions := []
    replied_to := none }

/-- The ordering the specification claims for a loaded conversation:
creation timestamp ascending with ties broken by identifier.  Stated from
the specification's words, to be compared with `fetchQueryOk`. -/
def tieOrderedById (msgs : List StoreMsg) : Prop :=
  msgs.Chain' (fun a b =>
    a.row.created_at < b.row.created_at ∨
      (a.row.created_at = b.row.created_at ∧ a.row.id < b.row.id))

/-! ## Realtime change listener (`postgres_changes` handler, Chat.tsx
lines 121-139) -/

/-- The INSERT branch of the `messages` table handler: the pushed row is
wrapped with an empty reaction list and appended to the state
unconditionally (`setMessages(prev => [...prev, newMessage])`). -/
def applyInsert (msgs : List StoreMsg) (r : Row) : List StoreMsg :=
  msgs ++ [{ row := r, message_reactions := [], replied_to := none }]

/-- The spread `{ ...msg, ...payload.new }`: every table column comes from
the pushed row, while the joined fields (`message_reactions`,
`replied_to`) that the row does not carry are kept from the store entry. -/
def mergeRow (m : StoreMsg) (r : Row) : StoreMsg :=
  { m with row := r }

/-- The UPDATE branch of the `messages` table handler: map over the state,
replacing each entry whose id equals the pushed row's id by the spread
merge (`prev.map(msg => msg.id === payload.new.id ? {...msg, ...payload.new} : msg)`). -/
def applyUpdate (msgs : List StoreMsg) (r : Row) : List StoreMsg :=
  msgs.map (fun m => if m.row.id = r.id then mergeRow m r else m)

/-! ## Soft delete (`handleDeleteMessage`, Chat.tsx lines 205-216) and
message rendering (`ChatMessage`, AudioPlayer.tsx lines 149-159) -/

/-- The remote write of `handleDeleteMessage` after the user confirms:
`update({ deleted_at: now }).eq('id', messageId)` applied to the
`messages` table — an in-place update of the matching rows, never a row
removal. -/
def dbSoftDelete (table : List Row) (messageId : Nat) (now : String) :
    List Row :=
  table.map (fun r =>
    if r.id = messageId then { r with deleted_at := some now } else r)

/-- What `ChatMessage` renders for one store entry. -/
inductive Rendered where
  | placeholder (text : String)
  | bubble (m : StoreMsg)
deriving DecidableEq, Repr

/-- The `ChatMessage` component: a message whose `deleted_at` is truthy
renders as the fixed deleted placeholder; otherwise the normal bubble. -/
def renderMessage (m : StoreMsg) : Rendered :=
  if jsTruthy m.row.deleted_at then
    Rendered.placeholder "This message was deleted"
  else
    Rendered.bubble m

/-! ## Typing presence broadcaster (`handleTyping`, Chat.tsx lines
250-267)

Each keystroke sends a `{isTyping: true}` broadcast, clears the pending
idle timeout and schedules a fresh one 2000 ms later that sends
`{isTyping: false}`.  `typingBroadcasts` computes the resulting broadcast
sequence for a strictly increasing list of keystroke times (in
milliseconds) observed up to time `tEnd`: the timer armed by a keystroke
fires only if it reaches its expiry before the next keystroke clears it. -/
def typingBroadcasts : List Nat → Nat → List (Nat × Bool)
  | [], _ => []
  | [t], tEnd =>
      (t, true) :: (if t + 2000 ≤ tEnd then [(t + 2000, false)] else [])
  | t :: t2 :: rest, tEnd =>
      ((t, true) :: (if t + 2000 ≤ t2 then [(t + 2000, false)] else []))
        ++ typingBroadcasts (t2 :: rest) tEnd

/-! ## Attachment sends (`handlePickImage`, Chat.tsx lines 269-316, and
`handleStopRecording`, lines 345-393) -/

/-- The body of a `supabase.from('messages').insert(...)` call issued by
the chat component. -/
structure InsertPayload where
  conversation_id : Nat
  sender_id : Nat
  content : Option String
  image_url : Option String
  audio_url : Option String
  audio_duration_seconds : Option Nat
  reply_to_message_id : Option Nat
deriving DecidableEq, Repr

/-- The observable remote effects of a send handler, in issue order. -/
inductive Effect where
  | permissionAlert
  | upload (bucket : String) (path : String)
  | insertMessage (p : InsertPayload)
  | logError (s : String)
deriving DecidableEq, Repr

/-- The effect trace of `handlePickImage`: permission check, picker, blob
upload to `chat_images`, then — only if the upload succeeded — the message
row insert.  An upload error is logged and the handler returns. -/
def handlePickImage (granted canceled hasB64 uploadFails insertFails : Bool)
    (conversationId senderId : Nat) (replyingTo : Option Nat)
    (filePath : String) : List Effect :=
  if !granted then [Effect.permissionAlert]
  else if canceled || !hasB64 then []
  else
    Effect.upload "chat_images" filePath ::
      (if uploadFails then [Effect.logError "Error uploading image"]
       else
        Effect.insertMessage
            { conversation_id := conversationId, sender_id := senderId
              content := none, image_url := some filePath
              audio_url := none, audio_duration_seconds := none
              reply_to_message_id := replyingTo } ::
          (if insertFails then [Effect.logError "Error sending image message"]
           else []))

/-- The effect trace of `handleStopRecording send`: when sending, the blob
upload to `chat_audio` comes first; an upload error throws into the catch
block (logged), so the message row insert is reached only on upload
success.  Discarding (`send = false`) issues no remote effect. -/
def handleStopRecording (hasRecording send hasUri uploadFails : Bool)
    (conversationId senderId : Nat) (replyingTo : Option Nat)
    (filePath : String) (durationSeconds : Nat) : List Effect :=
  if !hasRecording then []
  else if send && hasUri then
    Effect.upload "chat_audio" filePath ::
      (if uploadFails then [Effect.logError "Error with recording"]
       else
        [Effect.insertMessage
          { conversation_id := conversationId, sender_id := senderId
            content := none, image_url := none
            audio_url := some filePath
            audio_duration_seconds := some durationSeconds
            reply_to_message_id := replyingTo }])
  else []

/-! ## Reactions (`handleSelectReaction`, Chat.tsx lines 196-203) -/

/-- A row of the `message_reactions` table. -/
structure Reaction where
  message_id : Nat
  user_id : Nat
  emoji : String
deriving DecidableEq, Repr

/-- Modelled from the spec: the `toggle_reaction` remote procedure that
`handleSelectReaction` invokes via `supabase.rpc('toggle_reaction', ...)`
is defined server-side and is not part of this repository.  Per the
specification its add/remove semantics are atomic and toggling the same
emoji twice removes it; modelled as: remove the (message, user, emoji)
reaction when present, append it when absent. -/
def toggle_reaction (table : List Reaction) (messageId userId : Nat)
    (emoji : String) : List Reaction :=
  if (⟨messageId, userId, emoji⟩ : Reaction) ∈ table then
    table.filter (fun r => r ≠ ⟨messageId, userId, emoji⟩)
  else
    table ++ [⟨messageId, userId, emoji⟩]

/-- `handleSelectReaction`: a no-op when no message is being reacted to,
otherwise one `toggle_reaction` call for the picked emoji by the current
user. -/
def handleSelectReaction (reactingTo : Option Row) (table : List Reaction)
    (currentUser : Nat) (emoji : String) : List Reaction :=
  match reactingTo with
  | none => table
  | some m => toggle_reaction table m.id currentUser emoji

/-! ## Escrow fund release (`Deno.serve` handler,
`src/app/invoice/index.ts`) -/

/-- A row of the `orders` table, restricted to the columns the release
handler reads or writes. -/
structure Order where
  id : Nat
  sender_id : Nat
  rider_id : Nat
  delivery_fee : Int
  status : String
  escrow_status : String
deriving DecidableEq, Repr

/-- A row of the `profiles` table (wallet holder). -/
structure Profile where
  id : Nat
  wallet_balance : Int
deriving DecidableEq, Repr

/-- A row of the `transactions` table as written by the release handler
and the wallet payment flow. -/
structure Txn where
  user_id : Nat
  order_id : Option Nat
  type : String
  amount : Int
  status : String
  payment_provider : String
deriving DecidableEq, Repr

/-- The remote database state the escrow release handler touches, plus the
handler's console error log. -/
structure EscrowDB where
  orders : List Order
  profiles : List Profile
  transactions : List Txn
  consoleErrors : List String
deriving DecidableEq, Repr

/-- Which of the three remote writes of the release handler fail. -/
structure EscrowFailures where
  balanceFails : Bool
  statusFails : Bool
  txFails : Bool
deriving DecidableEq, Repr

/-- Step 2 of the handler: overwrite the rider profile wallet balance with
the fetched balance plus the delivery fee
(`update({ wallet_balance: newRiderBalance }).eq('id', order.rider_id)`,
where the fetched balance defaults to 0 when the rider join is null). -/
def creditRiderWallet (db : EscrowDB) (order : Order) : EscrowDB :=
  { db with profiles := db.profiles.map (fun p =>
      if p.id == order.rider_id then
        { p with wallet_balance :=
            (((db.profiles.find? (fun q => q.id == order.rider_id)).map
              Profile.wallet_balance).getD 0) + order.delivery_fee }
      else p) }

/-- Step 3 of the handler: `update({ status: 'completed', escrow_status:
'released' }).eq('id', orderId)`. -/
def markOrderCompleted (db : EscrowDB) (orderId : Nat) : EscrowDB :=
  { db with orders := db.orders.map (fun o =>
      if o.id == orderId then
        { o with status := "completed", escrow_status := "released" }
      else o) }

/-- Step 4 of the handler: insert the payout transaction record for the
rider. -/
def insertPayout (db : EscrowDB) (order : Order) : EscrowDB :=
  { db with transactions := db.transactions ++
      [{ user_id := order.rider_id, order_id := some order.id
         type := "payout", amount := order.delivery_fee
         status := "successful", payment_provider := "escrow_release" }] }

/-- The console log written when the payout insert fails after the funds
were already released. -/
def logTxFailure (db : EscrowDB) : EscrowDB :=
  { db with consoleErrors := db.consoleErrors ++
      ["Failed to create transaction log, but funds were released."] }

/-- The escrow release handler of `src/app/invoice/index.ts`: fetch the
order, check the caller is the sender and the order not yet completed,
then issue the three writes in sequence.  A balance or status write
failure throws immediately (HTTP 400) with no compensation of the earlier
writes; a payout insert failure is only logged and the handler still
responds with success. -/
def releaseEscrow (db : EscrowDB) (userId orderId : Nat)
    (f : EscrowFailures) : EscrowDB × Except String String :=
  match db.orders.find? (fun o => o.id == orderId) with
  | none => (db, Except.error "Order not found.")
  | some order =>
    if order.sender_id ≠ userId then
      (db, Except.error "Only the sender can confirm delivery.")
    else if order.status = "completed" then
      (db, Except.error "This order has already been completed.")
    else if f.balanceFails then
      (db, Except.error "Failed to update rider wallet")
    else if f.statusFails then
      (creditRiderWallet db order, Except.error "Failed to update order status")
    else if f.txFails then
      (logTxFailure (markOrderCompleted (creditRiderWallet db order) orderId),
       Except.ok "Funds released successfully!")
    else
      (insertPayout (markOrderCompleted (creditRiderWallet db order) orderId)
        order,
       Except.ok "Funds released successfully!")

/-- A concrete order: id 10, sender 1, rider 2, delivery fee 500, in
transit, escrow held. -/
def sampleOrder : Order :=
  { id := 10, sender_id := 1, rider_id := 2, delivery_fee := 500
    status := "in_transit", escrow_status := "held" }

/-- A concrete escrow database: the sample order and the rider profile
with a zero wallet. -/
def escrowDB0 : EscrowDB :=
  { orders := [sampleOrder]
    profiles := [{ id := 2, wallet_balance := 0 }]
    transactions := []
    consoleErrors := [] }

/-! ## Invoice wallet payment (`processPayment`,
`src/app/invoice/[id].tsx` lines 78-136) -/

/-- A row of the `invoices` table, restricted to the columns
`processPayment` reads or writes. -/
structure Invoice where
  id : Nat
  invoice_number : String
  total_amount : Int
  status : String
  customer_id : Option Nat
  paid_at : Option String
  payment_reference : Option String
deriving DecidableEq, Repr

/-- A transaction record as inserted by `processPayment` (wallet payment
of an invoice; the invoice reference travels in the metadata). -/
structure PayTxn where
  user_id : Nat
  type : String
  amount : Int
  status : String
  payment_provider : String
  payment_reference : String
  meta_invoice_id : Nat
deriving DecidableEq, Repr

/-- The remote state the wallet payment flow touches. -/
structure PaymentDB where
  transactions : List PayTxn
  profiles : List Profile
  invoices : List Invoice
deriving DecidableEq, Repr

/-- The transaction record `processPayment` inserts as its first remote
write: type payment, provider wallet, and — before any balance check —
status already `completed`. -/
def completedPaymentTxn (profileId : Nat) (inv : Invoice) (ref : String) :
    PayTxn :=
  { user_id := profileId, type := "payment", amount := inv.total_amount
    status := "completed", payment_provider := "wallet"
    payment_reference := ref, meta_invoice_id := inv.id }

/-- `processPayment` of the invoice detail screen: (1) insert the
transaction record with status completed; (2) compute `newBalance =
profile.wallet_balance - invoice.total_amount` from the cached profile and
throw `Insufficient wallet balance` when it is negative; (3) write the new
wallet balance; (4) mark the invoice paid.  Each remote write takes a
failure flag; a throw at any point leaves all earlier writes applied. -/
def processPayment (db : PaymentDB) (profileId : Nat)
    (profileWallet : Int) (inv : Invoice) (ref now : String)
    (insertFails balanceFails invoiceFails : Bool) :
    PaymentDB × Except String Unit :=
  if insertFails then (db, Except.error "transaction insert failed")
  else
    let db1 := { db with transactions := db.transactions ++
        [completedPaymentTxn profileId inv ref] }
    if profileWallet - inv.total_amount < 0 then
      (db1, Except.error "Insufficient wallet balance")
    else if balanceFails then
      (db1, Except.error "wallet balance update failed")
    else
      let db2 := { db1 with profiles := db1.profiles.map (fun p =>
          if p.id == profileId then
            { p with wallet_balance := profileWallet - inv.total_amount }
          else p) }
      if invoiceFails then (db2, Except.error "invoice update failed")
      else
        ({ db2 with invoices := db2.invoices.map (fun i =>
            if i.id == inv.id then
              { i with status := "paid", customer_id := some profileId
                       paid_at := some now
                       payment_reference := some ref }
            else i) },
         Except.ok ())

/-- A concrete own text-only message: sender 7, non-empty content, no
attachments. -/
def sampleRow : Row :=
  { id := 42, conversation_id := 1, sender_id := 7, content := some "hi"
    image_url := none, audio_url := none, audio_duration_seconds := none
    reply_to_message_id := none, created_at := 9, updated_at := none
    deleted_at := none, read_at := none }

/-- A concrete image-message insert payload. -/
def samplePayload : InsertPayload :=
  { conversation_id := 1, sender_id := 2, content := none
    image_url := some "1/2/123.jpeg", audio_url := none
    audio_duration_seconds := none, reply_to_message_id := none }

/-- A concrete pending invoice of 250 kobo. -/
def sampleInvoice : Invoice :=
  { id := 3, invoice_number := "INV-202510-0001", total_amount := 250
    status := "pending_payment", customer_id := none, paid_at := none
    payment_reference := none }

end Payshipit

namespace Payshipit

/-- C4: the action sheet offers Edit iff the message is own, text-truthy,
and attachment-free; and when it does not, no button index triggers edit. -/
theorem edit_option_iff (m : Row) (currentUser : Nat) :
    ("Edit" ∈ actionOptions m currentUser ↔
      (m.sender_id = currentUser ∧ jsTruthy m.content
        ∧ ¬jsTruthy m.image_url ∧ ¬jsTruthy m.audio_url)) ∧
    (¬("Edit" ∈ actionOptions m currentUser) →
      ∀ i : Nat, actionsCallback (actionOptions m currentUser) i m ≠
        ChatAction.edit m) := by
  constructor
  · unfold actionOptions canEdit canDelete
    by_cases hs : m.sender_id = currentUser <;>
      by_cases hc : jsTruthy m.content <;>
        by_cases hi : jsTruthy m.image_url <;>
          by_cases ha : jsTruthy m.audio_url <;>
            simp [hs, hc, hi, ha]
  · intro hno i
    unfold actionsCallback
    cases hg : (actionOptions m currentUser).get? i with
    | none => simp
    | some s =>
      have hne : s ≠ "Edit" := fun h => hno (h ▸ List.get?_mem hg)
      split <;> simp_all

/-- Concrete instantiation of `edit_option_iff`: the sample own text-only
message does get the Edit option. -/
theorem edit_option_iff_witness : "Edit" ∈ actionOptions sampleRow 7 :=
  (edit_option_iff sampleRow 7).1.mpr
    ⟨rfl, by decide, by decide, by decide⟩

theorem applyUpdate_cons (m : StoreMsg) (ms : List StoreMsg) (r : Row) :
    applyUpdate (m :: ms) r =
      (if m.row.id = r.id then mergeRow m r else m) :: applyUpdate ms r :=
  rfl

theorem applyUpdate_map_id (msgs : List StoreMsg) (r : Row) :
    (applyUpdate msgs r).map (fun m => m.row.id) =
      msgs.map (fun m => m.row.id) := by
  induction msgs with
  | nil => rfl
  | cons m ms ih =>
    by_cases h : m.row.id = r.id <;> simp [applyUpdate_cons, mergeRow, h, ih]

/-- C6: the UPDATE branch is an idempotent by-id merge that preserves list
length and order, while the INSERT branch always appends — even when an
entry with the pushed row's id is already present, in which case the id
count strictly grows (no de-duplication). -/
theorem realtime_fold (msgs : List StoreMsg) (r : Row) :
    applyUpdate (applyUpdate msgs r) r = applyUpdate msgs r ∧
    (applyUpdate msgs r).length = msgs.length ∧
    (applyUpdate msgs r).map (fun m => m.row.id) =
      msgs.map (fun m => m.row.id) ∧
    (applyInsert msgs r).length = msgs.length + 1 ∧
    (applyInsert msgs r).countP (fun m => m.row.id == r.id) =
      msgs.countP (fun m => m.row.id == r.id) + 1 := by
  refine ⟨?_, ?_, applyUpdate_map_id msgs r, ?_, ?_⟩
  · induction msgs with
    | nil => rfl
    | cons m ms ih =>
      by_cases h : m.row.id = r.id <;>
        simp [applyUpdate_cons, mergeRow, h, ih]
  · simp [applyUpdate]
  · simp [applyInsert]
  · unfold applyInsert
    rw [List.countP_append]
    simp [List.countP_cons]

theorem dbSoftDelete_map_id (table : List Row) (messageId : Nat)
    (now : String) :
    (dbSoftDelete table messageId now).map Row.id = table.map Row.id := by
  induction table with
  | nil => rfl
  | cons r rs ih =>
    by_cases h : r.id = messageId <;> simp [dbSoftDelete, h] at ih ⊢ <;>
      exact ih

/-- C9: soft delete is an in-place update of the matching rows — table
length and the id sequence are unchanged, and each matching row now
carries the deletion timestamp; merging any row update into the store
keeps every entry's id at its position; and a store entry whose
deleted-at column holds the (non-empty) timestamp renders as the fixed
placeholder. -/
theorem soft_delete_placeholder (table : List Row) (msgs : List StoreMsg)
    (messageId : Nat) (now : String) (hnow : now ≠ "") :
    (dbSoftDelete table messageId now).length = table.length ∧
    (dbSoftDelete table messageId now).map Row.id = table.map Row.id ∧
    (∀ r ∈ dbSoftDelete table messageId now,
      r.id = messageId → r.deleted_at = some now) ∧
    (∀ r : Row, (applyUpdate msgs r).map (fun m => m.row.id) =
      msgs.map (fun m => m.row.id)) ∧
    (∀ m : StoreMsg, m.row.deleted_at = some now →
      renderMessage m = Rendered.placeholder "This message was deleted") := by
  refine ⟨?_, dbSoftDelete_map_id table messageId now, ?_, ?_, ?_⟩
  · simp [dbSoftDelete]
  · intro r hr hid
    simp only [dbSoftDelete, List.mem_map] at hr
    obtain ⟨r0, _, hr0⟩ := hr
    by_cases h : r0.id = messageId
    · simp [h] at hr0
      simp [← hr0]
    · simp [h] at hr0
      subst hr0
      exact absurd hid h
  · intro r
    exact applyUpdate_map_id msgs r
  · intro m hm
    simp [renderMessage, jsTruthy, hm, hnow]

theorem signRow_created_at (sign : String → String → Option String)
    (r : Row) : (signRow sign r).created_at = r.created_at := by
  unfold signRow signAudio signImage
  split_ifs <;> rfl

theorem signRow_id (sign : String → String → Option String) (r : Row) :
    (signRow sign r).id = r.id := by
  unfold signRow signAudio signImage
  split_ifs <;> rfl

/-- C5 (amended): the store receives the fetched rows in the order the
backend returned them — the client post-processing keeps every id at its
position and list length matches the set of conversation rows — and that
order is nondecreasing in `created_at`; nothing orders equal-timestamp
rows by identifier. -/
theorem message_load_order (cid : Nat)
    (sign : String → String → Option String)
    (table result : List FetchedMsg) (h : fetchQueryOk cid table result) :
    (processMessages sign result).map (fun m => m.row.id) =
      result.map (fun f => f.row.id) ∧
    (processMessages sign result).length =
      (table.filter (fun f => f.row.conversation_id == cid)).length ∧
    (processMessages sign result).Chain'
      (fun a b => a.row.created_at ≤ b.row.created_at) := by
  refine ⟨?_, ?_, ?_⟩
  · simp only [processMessages, List.map_map]
    refine List.map_congr_left ?_
    intro f _
    simp [Function.comp, formatMessage, signRow_id]
  · simp only [processMessages, List.length_map]
    exact h.1.length_eq
  · unfold processMessages
    rw [List.chain'_map]
    refine h.2.imp ?_
    intro a b hab
    simpa [formatMessage, signRow_created_at] using hab

/-- Concrete instantiation of `message_load_order`. -/
theorem message_load_order_witness :
    fetchQueryOk 1 [sampleF1] [sampleF1] ∧
    ((processMessages (fun _ _ => none) [sampleF1]).map (fun m => m.row.id) =
      [sampleF1].map (fun f => f.row.id) ∧
    (processMessages (fun _ _ => none) [sampleF1]).length =
      ([sampleF1].filter (fun f => f.row.conversation_id == 1)).length ∧
    (processMessages (fun _ _ => none) [sampleF1]).Chain'
      (fun a b => a.row.created_at ≤ b.row.created_at)) := by
  have h : fetchQueryOk 1 [sampleF1] [sampleF1] := by
    constructor
    · have hf : [sampleF1].filter
          (fun f => f.row.conversation_id == 1) = [sampleF1] := by decide
      rw [hf]
    · exact List.chain'_singleton _
  exact ⟨h, message_load_order 1 (fun _ _ => none) [sampleF1] [sampleF1] h⟩

/-- C5 counterexample: a backend answer that satisfies the issued query
(`order('created_at')` only) yet places two equal-timestamp messages with
descending identifiers, which the client passes through unchanged — the
loaded list is not tie-broken by identifier. -/
theorem message_load_tie_order_counterexample :
    fetchQueryOk 1 [sampleF2, sampleF1] [sampleF2, sampleF1] ∧
    ¬ tieOrderedById
      (processMessages (fun _ _ => none) [sampleF2, sampleF1]) := by
  refine ⟨⟨?_, ?_⟩, ?_⟩
  · have hf : [sampleF2, sampleF1].filter
        (fun f => f.row.conversation_id == 1) = [sampleF2, sampleF1] := by
      decide
    rw [hf]
  · rw [List.chain'_pair]
    decide
  · unfold tieOrderedById
    rw [show processMessages (fun _ _ => none) [sampleF2, sampleF1] =
      [formatMessage sampleF2, formatMessage sampleF1] from by
        simp [processMessages, signRow, signAudio, signImage, jsTruthy,
          sampleF1, sampleF2]]
    rw [List.chain'_pair]
    decide

/-- C7: with a failing blob upload, neither the image send handler nor
the audio send handler issues a message row insert — no message of any
shape is created. -/
theorem upload_failure_aborts_send
    (granted canceled hasB64 insertFails hasRecording send hasUri : Bool)
    (conversationId senderId : Nat) (replyingTo : Option Nat)
    (filePath : String) (durationSeconds : Nat) (p : InsertPayload) :
    Effect.insertMessage p ∉
      handlePickImage granted canceled hasB64 true insertFails
        conversationId senderId replyingTo filePath ∧
    Effect.insertMessage p ∉
      handleStopRecording hasRecording send hasUri true
        conversationId senderId replyingTo filePath durationSeconds := by
  constructor
  · unfold handlePickImage
    split_ifs <;> simp_all
  · unfold handleStopRecording
    split_ifs <;> simp_all

/-- Concrete instantiation of `upload_failure_aborts_send`. -/
theorem upload_failure_aborts_send_witness :
    Effect.insertMessage samplePayload ∉
      handlePickImage true false true true false 1 2 none "1/2/123.jpeg" ∧
    Effect.insertMessage samplePayload ∉
      handleStopRecording true true true true 1 2 none "1/2/123.jpeg" 5 :=
  upload_failure_aborts_send true false true false true true true 1 2 none
    "1/2/123.jpeg" 5 samplePayload

/-- C10: toggling the same emoji twice by the same user from an absent
initial state is the identity on the reaction table, and in particular
leaves that user's reaction on the message absent. -/
theorem reaction_double_toggle (table : List Reaction)
    (messageId userId : Nat) (emoji : String)
    (habs : (⟨messageId, userId, emoji⟩ : Reaction) ∉ table) :
    toggle_reaction (toggle_reaction table messageId userId emoji)
        messageId userId emoji = table ∧
    (⟨messageId, userId, emoji⟩ : Reaction) ∉
      toggle_reaction (toggle_reaction table messageId userId emoji)
        messageId userId emoji := by
  have h1 : toggle_reaction table messageId userId emoji =
      table ++ [⟨messageId, userId, emoji⟩] := by
    unfold toggle_reaction
    simp [habs]
  have h2 : toggle_reaction (table ++ [⟨messageId, userId, emoji⟩])
      messageId userId emoji = table := by
    unfold toggle_reaction
    rw [if_pos (by simp), List.filter_append]
    have hself : table.filter
        (fun r => r ≠ (⟨messageId, userId, emoji⟩ : Reaction)) = table := by
      refine List.filter_eq_self.mpr ?_
      intro r hr
      simp only [ne_eq, decide_eq_true_eq]
      exact fun he => habs (he ▸ hr)
    rw [hself]
    simp
  exact ⟨by rw [h1, h2], by rw [h1, h2]; exact habs⟩

/-- Concrete instantiation of `reaction_double_toggle`. -/
theorem reaction_double_toggle_witness :
    (⟨5, 2, "+1"⟩ : Reaction) ∉ ([] : List Reaction) ∧
    (toggle_reaction (toggle_reaction [] 5 2 "+1") 5 2 "+1" =
        ([] : List Reaction) ∧
      (⟨5, 2, "+1"⟩ : Reaction) ∉
        toggle_reaction (toggle_reaction [] 5 2 "+1") 5 2 "+1") :=
  ⟨by decide, reaction_double_toggle [] 5 2 "+1" (by decide)⟩

/-- C8: for a typing session (strictly increasing keystrokes, each within
2000 ms of the previous one) followed by a pause of at least 2000 ms,
every keystroke yields one `isTyping true` broadcast and exactly one
`isTyping false` broadcast is sent, at 2000 ms after the final
keystroke. -/
theorem typing_debounce (keys : List Nat) (tEnd tLast : Nat)
    (hlast : keys.getLast? = some tLast)
    (hchain : keys.Chain' (fun a b => a < b ∧ b < a + 2000))
    (hEnd : tLast + 2000 ≤ tEnd) :
    ((typingBroadcasts keys tEnd).filter (fun e => e.2)).length =
      keys.length ∧
    (typingBroadcasts keys tEnd).filter (fun e => !e.2) =
      [(tLast + 2000, false)] := by
  induction keys generalizing tLast with
  | nil => simp at hlast
  | cons t rest ih =>
    cases rest with
    | nil =>
      have ht : tLast = t := by
        simpa using hlast.symm
      subst ht
      simp [typingBroadcasts, hEnd]
    | cons t2 rest2 =>
      have hlast2 : (t2 :: rest2).getLast? = some tLast := by
        simpa [List.getLast?_cons_cons] using hlast
      rw [List.chain'_cons] at hchain
      have hnot : ¬ (t + 2000 ≤ t2) := by
        have := hchain.1.2
        omega
      obtain ⟨ihA, ihB⟩ := ih tLast hlast2 hchain.2 hEnd
      constructor
      · simp [typingBroadcasts, hnot, ihA]
      · simp [typingBroadcasts, hnot, ihB]

/-- Concrete instantiation of `typing_debounce`: three keystrokes inside
one session, one stop broadcast. -/
theorem typing_debounce_witness :
    ([0, 500, 1000].getLast? = some 1000) ∧
    List.Chain' (fun a b => a < b ∧ b < a + 2000) [0, 500, 1000] ∧
    1000 + 2000 ≤ 3000 ∧
    (((typingBroadcasts [0, 500, 1000] 3000).filter
        (fun e => e.2)).length = 3 ∧
      (typingBroadcasts [0, 500, 1000] 3000).filter (fun e => !e.2) =
        [(3000, false)]) := by
  have h1 : [0, 500, 1000].getLast? = some 1000 := by rfl
  have h2 : List.Chain' (fun a b => a < b ∧ b < a + 2000)
      [0, 500, 1000] := by
    rw [List.chain'_cons, List.chain'_cons]
    exact ⟨⟨by omega, by omega⟩, ⟨by omega, by omega⟩,
      List.chain'_singleton _⟩
  have h3 : 1000 + 2000 ≤ 3000 := by omega
  exact ⟨h1, h2, h3, typing_debounce [0, 500, 1000] 3000 1000 h1 h2 h3⟩

/-- Concrete instantiation of `soft_delete_placeholder`. -/
theorem soft_delete_placeholder_witness :
    ("2024-01-01T00:00:00.000Z" : String) ≠ "" ∧
    ((dbSoftDelete [] 1 "2024-01-01T00:00:00.000Z").length = ([] : List Row).length ∧
    (dbSoftDelete [] 1 "2024-01-01T00:00:00.000Z").map Row.id = ([] : List Row).map Row.id ∧
    (∀ r ∈ dbSoftDelete [] 1 "2024-01-01T00:00:00.000Z",
      r.id = 1 → r.deleted_at = some "2024-01-01T00:00:00.000Z") ∧
    (∀ r : Row, (applyUpdate [] r).map (fun m => m.row.id) =
      ([] : List StoreMsg).map (fun m => m.row.id)) ∧
    (∀ m : StoreMsg, m.row.deleted_at = some "2024-01-01T00:00:00.000Z" →
      renderMessage m = Rendered.placeholder "This message was deleted")) :=
  ⟨by decide, soft_delete_placeholder [] [] 1 "2024-01-01T00:00:00.000Z" (by decide)⟩

/-- C1: the release steps are sequential remote writes with no rollback.
When the order-status write fails after the wallet credit, the credit
stays applied and the handler only errors; when the payout insert fails
after the credit and the status write, both stay applied, no transaction
row exists, the inconsistency is merely logged, and the handler still
answers success. -/
theorem escrow_release_no_rollback (db : EscrowDB) (userId orderId : Nat)
    (order : Order) (txF : Bool)
    (hfind : db.orders.find? (fun o => o.id == orderId) = some order)
    (hsender : order.sender_id = userId)
    (hstatus : order.status ≠ "completed") :
    releaseEscrow db userId orderId ⟨false, true, txF⟩ =
      (creditRiderWallet db order,
       Except.error "Failed to update order status") ∧
    releaseEscrow db userId orderId ⟨false, false, true⟩ =
      (logTxFailure (markOrderCompleted (creditRiderWallet db order)
          orderId),
       Except.ok "Funds released successfully!") ∧
    (logTxFailure (markOrderCompleted (creditRiderWallet db order)
        orderId)).transactions = db.transactions ∧
    (logTxFailure (markOrderCompleted (creditRiderWallet db order)
        orderId)).consoleErrors = db.consoleErrors ++
      ["Failed to create transaction log, but funds were released."] := by
  refine ⟨?_, ?_, ?_, ?_⟩ <;>
    simp [releaseEscrow, hfind, hsender, hstatus, logTxFailure,
      markOrderCompleted, creditRiderWallet]

/-- Concrete instantiation of `escrow_release_no_rollback`: on the sample
database a failing payout insert still yields a success response while no
transaction row was written. -/
theorem escrow_release_no_rollback_witness :
    escrowDB0.orders.find? (fun o => o.id == 10) = some sampleOrder ∧
    sampleOrder.sender_id = 1 ∧ sampleOrder.status ≠ "completed" ∧
    (releaseEscrow escrowDB0 1 10 ⟨false, false, true⟩).2 =
      Except.ok "Funds released successfully!" ∧
    (releaseEscrow escrowDB0 1 10 ⟨false, false, true⟩).1.transactions =
      [] := by
  have h := escrow_release_no_rollback escrowDB0 1 10 sampleOrder true
    (by decide) (by decide) (by decide)
  refine ⟨by decide, by decide, by decide, ?_, ?_⟩
  · rw [h.2.1]
  · rw [h.2.1]
    exact h.2.2.1

/-- C3 counterexample: a release attempt whose order-status write fails
credits the rider wallet (500) but leaves the order uncompleted and
answers with an error; a retry then passes every guard, succeeds, and
credits the delivery fee a second time (wallet 1000) — the funds of one
order are released twice. -/
theorem escrow_double_release_counterexample :
    ((releaseEscrow escrowDB0 1 10 ⟨false, true, false⟩).1.profiles.find?
        (fun p => p.id == 2)).map Profile.wallet_balance = some 500 ∧
    (releaseEscrow escrowDB0 1 10 ⟨false, true, false⟩).2 =
      Except.error "Failed to update order status" ∧
    (releaseEscrow (releaseEscrow escrowDB0 1 10 ⟨false, true, false⟩).1
        1 10 ⟨false, false, false⟩).2 =
      Except.ok "Funds released successfully!" ∧
    ((releaseEscrow (releaseEscrow escrowDB0 1 10 ⟨false, true, false⟩).1
        1 10 ⟨false, false, false⟩).1.profiles.find?
        (fun p => p.id == 2)).map Profile.wallet_balance = some 1000 :=
  ⟨rfl, rfl, rfl, rfl⟩

theorem find?_map_update (l : List Order) (orderId : Nat) (order : Order)
    (h : l.find? (fun o => o.id == orderId) = some order) :
    (l.map (fun o => if o.id == orderId then
        { o with status := "completed", escrow_status := "released" }
      else o)).find? (fun o => o.id == orderId) =
      some { order with status := "completed"
                        escrow_status := "released" } := by
  induction l with
  | nil => simp at h
  | cons a l ih =>
    cases hab : (a.id == orderId) with
    | true =>
      have ha' : a.id = orderId := by simpa using hab
      simp only [List.find?_cons, hab] at h
      obtain rfl : a = order := by simpa using h
      simp only [List.map_cons, List.find?_cons, ha', if_true]
      simp [hab, ha']
    | false =>
      have ha' : ¬ a.id = orderId := by simpa using hab
      simp only [List.find?_cons, hab] at h
      simp only [List.map_cons, List.find?_cons, hab, Bool.false_eq_true,
        if_false]
      exact ih h

/-- C3 (amended): when the caller is not the sender or the order is
already completed the handler writes nothing and fails; and after a fully
successful release, a second invocation writes nothing and fails, whatever
its failure flags — so a fully successful release cannot be repeated.  (A
release whose status write failed after the credit is not covered: there a
retry credits again, see `escrow_double_release_counterexample`.) -/
theorem escrow_release_single (db : EscrowDB) (userId orderId : Nat)
    (order : Order) (f g : EscrowFailures)
    (hfind : db.orders.find? (fun o => o.id == orderId) = some order) :
    ((order.sender_id ≠ userId ∨ order.status = "completed") →
      (releaseEscrow db userId orderId f).1 = db ∧
      ∀ s, (releaseEscrow db userId orderId f).2 ≠ Except.ok s) ∧
    (order.sender_id = userId → order.status ≠ "completed" →
      (releaseEscrow
          (releaseEscrow db userId orderId ⟨false, false, false⟩).1
          userId orderId g).1 =
        (releaseEscrow db userId orderId ⟨false, false, false⟩).1 ∧
      ∀ s, (releaseEscrow
          (releaseEscrow db userId orderId ⟨false, false, false⟩).1
          userId orderId g).2 ≠ Except.ok s) := by
  constructor
  · intro hguard
    by_cases hs : order.sender_id = userId
    · have hc : order.status = "completed" :=
        hguard.resolve_left (by simp [hs])
      simp [releaseEscrow, hfind, hs, hc]
    · simp [releaseEscrow, hfind, hs]
  · intro hsender hstatus
    have hfirst : releaseEscrow db userId orderId ⟨false, false, false⟩ =
        (insertPayout
          (markOrderCompleted (creditRiderWallet db order) orderId) order,
         Except.ok "Funds released successfully!") := by
      simp [releaseEscrow, hfind, hsender, hstatus]
    have hfind2 : (insertPayout
        (markOrderCompleted (creditRiderWallet db order) orderId)
        order).orders.find? (fun o => o.id == orderId) =
        some { order with status := "completed"
                          escrow_status := "released" } := by
      simp only [insertPayout, markOrderCompleted, creditRiderWallet]
      exact find?_map_update db.orders orderId order hfind
    rw [hfirst]
    constructor
    · simp [releaseEscrow, hfind2, hsender]
    · intro s
      simp [releaseEscrow, hfind2, hsender]

/-- Concrete instantiation of `escrow_release_single`: repeating a fully
successful release of the sample order fails. -/
theorem escrow_release_single_witness :
    escrowDB0.orders.find? (fun o => o.id == 10) = some sampleOrder ∧
    (releaseEscrow (releaseEscrow escrowDB0 1 10 ⟨false, false, false⟩).1
        1 10 ⟨false, false, false⟩).2 ≠
      Except.ok "Funds released successfully!" := by
  have hfind : escrowDB0.orders.find? (fun o => o.id == 10) =
      some sampleOrder := by decide
  have h := escrow_release_single escrowDB0 1 10 sampleOrder
    ⟨false, false, false⟩ ⟨false, false, false⟩ hfind
  exact ⟨hfind, (h.2 (by decide) (by decide)).2 _⟩

/-- C2: when the cached wallet balance is below the invoice total (and the
insert call itself succeeds), `processPayment` fails with the
insufficient-balance error, yet the transaction record with status
completed has already been inserted; the wallet balances and the invoices
are untouched. -/
theorem wallet_payment_ghost_transaction (db : PaymentDB)
    (profileId : Nat) (profileWallet : Int) (inv : Invoice)
    (ref now : String) (balanceFails invoiceFails : Bool)
    (hlow : profileWallet < inv.total_amount) :
    processPayment db profileId profileWallet inv ref now false
        balanceFails invoiceFails =
      ({ db with transactions := db.transactions ++
          [completedPaymentTxn profileId inv ref] },
       Except.error "Insufficient wallet balance") := by
  have h : profileWallet - inv.total_amount < 0 := by omega
  simp [processPayment, h]

/-- Concrete instantiation of `wallet_payment_ghost_transaction`: wallet
100, invoice total 250. -/
theorem wallet_payment_ghost_transaction_witness :
    ((100 : Int) < sampleInvoice.total_amount) ∧
    processPayment ⟨[], [], []⟩ 1 100 sampleInvoice "PAY-1" "now"
        false false false =
      ({ transactions := [completedPaymentTxn 1 sampleInvoice "PAY-1"]
         profiles := [], invoices := [] },
       Except.error "Insufficient wallet balance") :=
  ⟨by decide, wallet_payment_ghost_transaction ⟨[], [], []⟩ 1 100
    sampleInvoice "PAY-1" "now" false false (by decide)⟩

end Payshipit
